import Mathlib

/-!
Shallow embedding of the MeetingVisualizer backend
(src/backend/app/services/transcription_service.py and src/backend/app/main.py).

Audio chunks are buffers of decoded samples (np.ndarray of float32 in the
source); only their length and concatenation structure matter to the claims,
so samples are modelled as integers.  WebSocket channels are identified by
natural numbers.  The external collaborators (the whisper model, the OpenAI
completion endpoint, pydantic validation, and per-channel delivery success)
are opaque in the source and are passed in as function parameters.
-/

/-- Client identity: one WebSocket channel. -/
abbrev Client := Nat

/-- AudioChunk: a buffer of decoded audio samples. -/
abbrev Chunk := List Int

/-- ActionItem (pydantic model in transcription_service.py): task, optional
assignee, optional due date, optional context, status, creation timestamp.
Timestamps are modelled as naturals. -/
structure ActionItem where
  task : String
  assignee : Option String
  due_date : Option Nat
  context : Option String
  status : String := "pending"
  created_at : Nat := 0
deriving DecidableEq, Repr

/-- DiagramMetadata (pydantic model in transcription_service.py).  A
relationship dict {from, to, type} is modelled as a string triple. -/
structure DiagramMetadata where
  diagram_type : String
  content : String
  relationships : List (String × String × String)
  title : Option String
  created_at : Nat := 0
  last_updated : Nat := 0
deriving DecidableEq, Repr

/-- Mutable fields of a TranscriptionService instance (the audio queue is
kept separately, as in the source it is only touched by the background
loop modelled below). -/
structure ServiceState where
  current_transcript : String
  action_items : List ActionItem
  diagrams : List DiagramMetadata
  websocket_clients : List Client
deriving DecidableEq, Repr

/-- Payload of one outbound event, mirroring the dictionaries that the
source passes to broadcast_update / send_json. -/
inductive EventData where
  | textDelta (text : String)
  | diagramData (d : DiagramMetadata)
  | actionItemsData (items : List ActionItem)
  | errorData (message : String)
deriving DecidableEq, Repr

/-- Outbound event envelope: json.dumps({"type": update_type, "data": data}). -/
structure Event where
  type : String
  data : EventData
deriving DecidableEq, Repr

/-- Result of get_current_state(): {"transcript": ..., "diagrams": ...,
"action_items": ...}. -/
structure CurrentState where
  transcript : String
  diagrams : List DiagramMetadata
  action_items : List ActionItem
deriving DecidableEq, Repr

/-- The opaque external collaborators of one TranscriptionService session:
whisper transcription (self.model.transcribe, which may raise), the raw
OpenAI chat responses for the diagram and action-item instructions (which
may raise), the two pydantic validators (model_validate_json, returning
none when validation raises), and per-channel delivery success for
client.send_text. -/
structure Collaborators where
  transcribe : Chunk → Except String String
  diagramResponse : String → Except String String
  validateDiagram : String → Option DiagramMetadata
  itemsResponse : String → Except String String
  validateItem : String → Option ActionItem
  sendOk : Client → Bool

/-- Python exceptions distinguished by the claims. -/
inductive PyExc where
  | valueError
  | indexError
deriving DecidableEq, Repr

/-! ## Audio Intake Queue (self.audio_buffer : Queue) -/

/-- Queue.put: appends at the back of the FIFO queue. -/
def enqueue (q : List Chunk) (c : Chunk) : List Chunk := q ++ [c]

/-- The drain loop of _process_audio_buffer:
while not self.audio_buffer.empty(): chunks.append(self.audio_buffer.get()).
Queue.get removes the front element. -/
def drain_loop : List Chunk → List Chunk → List Chunk × List Chunk
  | [], acc => (acc, [])
  | c :: q, acc => drain_loop q (acc ++ [c])

/-- drain_all of the spec: the drained chunks and the queue left behind. -/
def drain_all (q : List Chunk) : List Chunk × List Chunk := drain_loop q []

/-! ## Connection Registry (TranscriptionService side) -/

/-- Loop body of broadcast_update: iterate self.websocket_clients by index
while remove_client mutates the same list; a failed send removes the first
occurrence of that client (list.remove) and the index still advances, so
the element that slid into the current slot is never visited.  The fuel
starts at the initial list length, which bounds the number of iterations.
Returns the surviving client list and the clients that received the
message, in send order. -/
def broadcast_update_go (ok : Client → Bool) :
    Nat → List Client → Nat → List Client → List Client × List Client
  | 0, clients, _, delivered => (clients, delivered)
  | fuel + 1, clients, i, delivered =>
    if h : i < clients.length then
      let c := clients.get ⟨i, h⟩
      if ok c then
        broadcast_update_go ok fuel clients (i + 1) (delivered ++ [c])
      else
        broadcast_update_go ok fuel (clients.erase c) (i + 1) delivered
    else (clients, delivered)

/-- broadcast_update(update_type, data) restricted to its effect on the
client list: returns (surviving clients, clients that received the event). -/
def broadcast_update (ok : Client → Bool) (clients : List Client) :
    List Client × List Client :=
  broadcast_update_go ok clients.length clients 0 []

/-- get_current_state(): read-only snapshot {transcript, diagrams,
action_items}. -/
def get_current_state (s : ServiceState) : CurrentState :=
  ⟨s.current_transcript, s.diagrams, s.action_items⟩

/-- register_client(websocket): accept, append to websocket_clients, then
send_json(get_current_state()).  Returns the new state and the snapshot
message sent to the new client (the snapshot fields are unaffected by the
append, so reading them before or after it is the same). -/
def register_client (s : ServiceState) (w : Client) : ServiceState × CurrentState :=
  ({ s with websocket_clients := s.websocket_clients ++ [w] }, get_current_state s)

/-- remove_client(websocket): self.websocket_clients.remove(websocket).
Python list.remove deletes the first occurrence and raises ValueError when
the value is absent. -/
def remove_client (s : ServiceState) (w : Client) : Except PyExc ServiceState :=
  if w ∈ s.websocket_clients then
    .ok { s with websocket_clients := s.websocket_clients.erase w }
  else .error PyExc.valueError

/-! ## Insight Generator parsing -/

/-- Python str.split of a string at every newline character, keeping empty
pieces, as raw.split of _extract_action_items does. -/
def split_lines_aux : List Char → List Char → List String
  | [], acc => [String.mk acc.reverse]
  | c :: cs, acc =>
    if c = '\n' then String.mk acc.reverse :: split_lines_aux cs []
    else split_lines_aux cs (c :: acc)

/-- raw.split at newline characters. -/
def split_lines (raw : String) : List String := split_lines_aux raw.data []

/-- item.strip() is falsy exactly when the line is all whitespace. -/
def is_blank (s : String) : Bool := s.data.all Char.isWhitespace

/-- The lines the comprehension keeps: [item for item in raw.split if
item.strip()]. -/
def nonblank_lines (raw : String) : List String :=
  (split_lines raw).filter (fun l => !(is_blank l))

/-- Left-to-right validation of the comprehension
[ActionItem.model_validate_json(item) for item in lines]: the first line
whose validation raises aborts the whole comprehension, discarding every
already-built item. -/
def validate_lines (validate : String → Option ActionItem) :
    List String → Option (List ActionItem)
  | [] => some []
  | l :: ls =>
    match validate l with
    | none => none
    | some item =>
      match validate_lines validate ls with
      | none => none
      | some items => some (item :: items)

/-- The comprehension of _extract_action_items wrapped in its try/except:
a validation failure anywhere yields the empty list. -/
def parse_action_items (validate : String → Option ActionItem) (raw : String) :
    List ActionItem :=
  match validate_lines validate (nonblank_lines raw) with
  | some items => items
  | none => []

/-- _generate_diagram_spec: the OpenAI call followed by
DiagramMetadata.model_validate_json, all inside one try/except returning
None on any failure. -/
def generate_diagram_spec (c : Collaborators) (transcript : String) :
    Option DiagramMetadata :=
  match c.diagramResponse transcript with
  | .error _ => none
  | .ok raw => c.validateDiagram raw

/-- _extract_action_items: the OpenAI call followed by the per-line
validation comprehension, all inside one try/except returning [] on any
failure. -/
def extract_action_items (c : Collaborators) (transcript : String) :
    List ActionItem :=
  match c.itemsResponse transcript with
  | .error _ => []
  | .ok raw => parse_action_items c.validateItem raw

/-! ## Orchestrator cycle -/

/-- The "if diagram:" block of _analyze_content: append the diagram and
broadcast it.  A pydantic model object is always truthy, so any some
result is appended. -/
def run_diagram_step (c : Collaborators) (s : ServiceState) :
    ServiceState × List (Event × List Client) :=
  match generate_diagram_spec c s.current_transcript with
  | some d =>
    let br := broadcast_update c.sendOk s.websocket_clients
    ({ s with diagrams := s.diagrams ++ [d], websocket_clients := br.1 },
     [(Event.mk "diagram" (EventData.diagramData d), br.2)])
  | none => (s, [])

/-- The "if action_items:" block of _analyze_content: an empty list is
falsy, so only a non-empty parse result is appended and broadcast. -/
def run_action_items_step (c : Collaborators) (items : List ActionItem)
    (acc : ServiceState × List (Event × List Client)) :
    ServiceState × List (Event × List Client) :=
  match items with
  | [] => acc
  | _ =>
    let br := broadcast_update c.sendOk acc.1.websocket_clients
    ({ acc.1 with action_items := acc.1.action_items ++ items,
                  websocket_clients := br.1 },
     acc.2 ++ [(Event.mk "action_items" (EventData.actionItemsData items), br.2)])

/-- _analyze_content: both derivation calls run on the same full current
transcript; the diagram result is applied first, then the action items. -/
def analyze_content (c : Collaborators) (s : ServiceState) :
    ServiceState × List (Event × List Client) :=
  run_action_items_step c (extract_action_items c s.current_transcript)
    (run_diagram_step c s)

/-- Result of one process_audio_chunk call: the new state, the events sent
with their recipients, and the transcribed text the function returns. -/
structure ChunkResult where
  state : ServiceState
  events : List (Event × List Client)
  text : String
deriving DecidableEq, Repr

/-- process_audio_chunk(audio): transcribe (an exception propagates to the
caller), append the text to current_transcript, broadcast the transcript
delta, then _analyze_content against the updated transcript. -/
def process_audio_chunk (c : Collaborators) (s : ServiceState) (audio : Chunk) :
    Except String ChunkResult :=
  match c.transcribe audio with
  | .error e => .error e
  | .ok text =>
    let br := broadcast_update c.sendOk s.websocket_clients
    let s1 : ServiceState :=
      { s with current_transcript := s.current_transcript ++ text,
               websocket_clients := br.1 }
    let r := analyze_content c s1
    .ok ⟨r.1, (Event.mk "transcript" (EventData.textDelta text), br.2) :: r.2, text⟩

/-- Observable outcome of one iteration of the _process_audio_buffer
while-loop: remaining queue, new state, texts returned by
process_audio_chunk, events sent, and the buffers submitted to the
transcriber. -/
structure CycleResult where
  queue : List Chunk
  state : ServiceState
  texts : List String
  events : List (Event × List Client)
  calls : List Chunk
deriving DecidableEq, Repr

/-- One iteration of the _process_audio_buffer loop: if the queue is empty
the iteration only sleeps; otherwise it drains every queued chunk,
np.concatenate-s them and runs process_audio_chunk on the combined buffer.
There is no exception handling in the source loop, so a transcription
failure propagates (terminating the background thread). -/
def process_audio_buffer_cycle (c : Collaborators) (q : List Chunk)
    (s : ServiceState) : Except String CycleResult :=
  if q.isEmpty then .ok ⟨q, s, [], [], []⟩
  else
    match process_audio_chunk c s (drain_all q).1.flatten with
    | .error e => .error e
    | .ok r =>
      .ok ⟨(drain_all q).2, r.state, [r.text], r.events, [(drain_all q).1.flatten]⟩

/-- Cumulative outcome of a run of orchestrator cycles. -/
structure RunResult where
  queue : List Chunk
  state : ServiceState
  texts : List String
deriving DecidableEq, Repr

/-- A run of the background loop: each script entry is the chunks enqueued
by the receiving task before that cycle plus that cycle's collaborator
behaviour.  An uncaught exception aborts the run, as it kills the
background thread in the source. -/
def run_cycles (s : ServiceState) (q : List Chunk) :
    List (List Chunk × Collaborators) → Except String RunResult
  | [] => .ok ⟨q, s, []⟩
  | (incoming, c) :: rest =>
    match process_audio_buffer_cycle c (incoming.foldl enqueue q) s with
    | .error e => .error e
    | .ok r =>
      match run_cycles r.state r.queue rest with
      | .error e => .error e
      | .ok out => .ok ⟨out.queue, out.state, r.texts ++ out.texts⟩

/-! ## ConnectionManager (main.py) -/

/-- Mutable fields of the ConnectionManager relevant to the claims. -/
structure ManagerState where
  active_connections : List Client
  current_transcript : String
deriving DecidableEq, Repr

/-- Return value of ConnectionManager.process_audio: on success the
transcript delta plus the raw diagram text (None on its internal failure)
and the raw action-item text (the empty-list fallback of its internal
failure is folded into none); on a transcription failure the except branch
returns {"error": str(e)}. -/
inductive CMResult where
  | ok (transcript : String) (diagram : Option String) (action_items : Option String)
  | err (msg : String)
deriving DecidableEq, Repr

/-- ConnectionManager.process_audio: transcribe inside try/except, append
to current_transcript, then generate_diagram and extract_action_items on
the full transcript (each swallowing its own failures). -/
def cm_process_audio (tr : Chunk → Except String String)
    (dr : String → Except String String) (ir : String → Except String String)
    (s : ManagerState) (audio : Chunk) : ManagerState × CMResult :=
  match tr audio with
  | .error e => (s, CMResult.err e)
  | .ok text =>
    let t := s.current_transcript ++ text
    let d := match dr t with | .ok c => some c | .error _ => none
    let a := match ir t with | .ok c => some c | .error _ => none
    ({ s with current_transcript := t }, CMResult.ok text d a)

/-- A sequence of process_audio calls, one per received audio buffer. -/
def cm_run (tr : Chunk → Except String String)
    (dr : String → Except String String) (ir : String → Except String String) :
    ManagerState → List Chunk → ManagerState
  | s, [] => s
  | s, audio :: rest => cm_run tr dr ir (cm_process_audio tr dr ir s audio).1 rest

/-- The transcript delta a buffer contributes: some text on transcription
success, none on failure. -/
def success_text (tr : Chunk → Except String String) (a : Chunk) : Option String :=
  match tr a with
  | .ok t => some t
  | .error _ => none

/-- ConnectionManager.disconnect(websocket): remove only if present, then
close inside try/except with the error swallowed (the removal has already
happened in either branch). -/
def disconnect (close : Client → Except String Unit) (cl : List Client)
    (w : Client) : List Client :=
  if w ∈ cl then
    match close w with
    | .ok _ => cl.erase w
    | .error _ => cl.erase w
  else cl

/-! ## export_diagram -/

/-- Python index adjustment: a negative index counts from the end. -/
def py_adjust (len : Nat) (i : Int) : Int := if i < 0 then i + len else i

/-- Python list indexing: adjust a negative index by the length; an index
out of the adjusted range raises IndexError (here: none). -/
def py_index (l : List DiagramMetadata) (i : Int) : Option DiagramMetadata :=
  if h : 0 ≤ py_adjust l.length i ∧ py_adjust l.length i < (l.length : Int) then
    some (l.get ⟨(py_adjust l.length i).toNat, by omega⟩)
  else none

/-- export_diagram(diagram_id): raise ValueError when
diagram_id >= len(self.diagrams); otherwise index self.diagrams (Python
semantics, so a negative id indexes from the end and may raise IndexError)
and then fall through the commented-out body, returning None — never the
promised bytes (modelled as Option (List Nat), with none for Python None). -/
def export_diagram (diagrams : List DiagramMetadata) (diagram_id : Int) :
    Except PyExc (Option (List Nat)) :=
  if (diagrams.length : Int) ≤ diagram_id then .error PyExc.valueError
  else
    match py_index diagrams diagram_id with
    | none => .error PyExc.indexError
    | some _ => .ok none

/-! ## Concrete instances used by witnesses and counterexamples -/

/-- A concrete action item. -/
def item0 : ActionItem := ⟨"write minutes", some "alex", none, none, "pending", 0⟩

/-- A concrete diagram. -/
def diag0 : DiagramMetadata := ⟨"flowchart", "graph TD", [], none, 0, 0⟩

/-- The freshly initialised service state. -/
def s0 : ServiceState := ⟨"", [], [], []⟩

/-- Collaborators whose transcription succeeds with text T while both
derivations fail and every send succeeds. -/
def cW : Collaborators :=
  ⟨fun _ => .ok "T", fun _ => .error "quota", fun _ => none,
   fun _ => .error "quota", fun _ => none, fun _ => true⟩

/-- Collaborators whose transcription raises. -/
def cFail : Collaborators :=
  ⟨fun _ => .error "transcription failed", fun _ => .error "quota",
   fun _ => none, fun _ => .error "quota", fun _ => none, fun _ => true⟩

/-- Collaborators whose diagram call fails while the action-item call
parses one item. -/
def cC5 : Collaborators :=
  ⟨fun _ => .ok "T", fun _ => .error "malformed", fun _ => none,
   fun _ => .ok "line", fun _ => some item0, fun _ => true⟩

/-- A validator accepting exactly the line "good". -/
def vW : String → Option ActionItem :=
  fun s => if s = "good" then some item0 else none

/-! ## Helper lemmas -/

/-- Ordered concatenation of a list of transcript deltas. -/
def concat_texts : List String → String
  | [] => ""
  | t :: ts => t ++ concat_texts ts

theorem concat_texts_append (xs ys : List String) :
    concat_texts (xs ++ ys) = concat_texts xs ++ concat_texts ys := by
  induction xs with
  | nil => simp [concat_texts, String.empty_append]
  | cons t ts ih => simp [concat_texts, ih, String.append_assoc]

theorem foldl_enqueue (chunks q : List Chunk) :
    List.foldl enqueue q chunks = q ++ chunks := by
  induction chunks generalizing q with
  | nil => simp
  | cons c cs ih => simp [List.foldl, enqueue, ih]

theorem drain_loop_eq (q acc : List Chunk) : drain_loop q acc = (acc ++ q, []) := by
  induction q generalizing acc with
  | nil => simp [drain_loop]
  | cons c q ih => simp [drain_loop, ih]

theorem drain_all_eq (q : List Chunk) : drain_all q = (q, []) := by
  rw [drain_all, drain_loop_eq]; simp

theorem run_diagram_step_transcript (c : Collaborators) (s : ServiceState) :
    (run_diagram_step c s).1.current_transcript = s.current_transcript := by
  unfold run_diagram_step
  cases generate_diagram_spec c s.current_transcript <;> rfl

theorem run_action_items_step_transcript (c : Collaborators)
    (items : List ActionItem) (acc : ServiceState × List (Event × List Client)) :
    (run_action_items_step c items acc).1.current_transcript =
      acc.1.current_transcript := by
  unfold run_action_items_step
  cases items <;> rfl

theorem analyze_content_transcript (c : Collaborators) (s : ServiceState) :
    (analyze_content c s).1.current_transcript = s.current_transcript := by
  unfold analyze_content
  rw [run_action_items_step_transcript, run_diagram_step_transcript]

theorem process_audio_chunk_transcript (c : Collaborators) (s : ServiceState)
    (audio : Chunk) (r : ChunkResult)
    (h : process_audio_chunk c s audio = .ok r) :
    r.state.current_transcript = s.current_transcript ++ r.text := by
  unfold process_audio_chunk at h
  cases htr : c.transcribe audio with
  | error e => rw [htr] at h; cases h
  | ok text =>
    rw [htr] at h
    simp only [Except.ok.injEq] at h
    subst h
    simp [analyze_content_transcript]

theorem process_audio_buffer_cycle_transcript (c : Collaborators)
    (q : List Chunk) (s : ServiceState) (r : CycleResult)
    (h : process_audio_buffer_cycle c q s = .ok r) :
    r.state.current_transcript = s.current_transcript ++ concat_texts r.texts := by
  unfold process_audio_buffer_cycle at h
  by_cases hq : q.isEmpty
  · rw [if_pos hq] at h
    simp only [Except.ok.injEq] at h
    subst h
    simp [concat_texts, String.append_empty]
  · rw [if_neg hq] at h
    split at h
    · cases h
    · rename_i rc hpc
      simp only [Except.ok.injEq] at h
      subst h
      simp [concat_texts, String.append_empty,
        process_audio_chunk_transcript c s _ rc hpc]

theorem run_cycles_transcript :
    ∀ (script : List (List Chunk × Collaborators)) (s : ServiceState)
      (q : List Chunk) (out : RunResult), run_cycles s q script = .ok out →
      out.state.current_transcript =
        s.current_transcript ++ concat_texts out.texts := by
  intro script
  induction script with
  | nil =>
    intro s q out h
    unfold run_cycles at h
    simp only [Except.ok.injEq] at h
    subst h
    simp [concat_texts, String.append_empty]
  | cons entry rest ih =>
    intro s q out h
    obtain ⟨incoming, c⟩ := entry
    unfold run_cycles at h
    split at h
    · cases h
    · rename_i r hc
      split at h
      · cases h
      · rename_i out2 hr
        simp only [Except.ok.injEq] at h
        subst h
        have h1 := process_audio_buffer_cycle_transcript c _ s r hc
        have h2 := ih r.state r.queue out2 hr
        simp [h2, h1, concat_texts_append, String.append_assoc]

theorem cm_run_transcript (tr : Chunk → Except String String)
    (dr ir : String → Except String String) :
    ∀ (audios : List Chunk) (s : ManagerState),
      (cm_run tr dr ir s audios).current_transcript =
        s.current_transcript ++
          concat_texts (audios.filterMap (success_text tr)) := by
  intro audios
  induction audios with
  | nil => intro s; simp [cm_run, concat_texts, String.append_empty]
  | cons a rest ih =>
    intro s
    cases htr : tr a with
    | error e =>
      simp [cm_run, cm_process_audio, htr, success_text, ih]
    | ok t =>
      simp [cm_run, cm_process_audio, htr, success_text, ih, concat_texts,
        String.append_assoc]

/-! ## Claim theorems -/

/-- Claim C1: for every session, after any number of processing cycles the
stored transcript equals the concatenation, in arrival order, of the texts
returned by the transcriber for every successfully transcribed chunk buffer
processed so far, and the transcript is append-only: each successful
process_audio_chunk extends it by exactly that cycle's transcribed text,
while _analyze_content and register_client never change it.  The last
conjunct states the same invariant for ConnectionManager.process_audio in
main.py, where failed transcriptions are skipped and the transcript is the
concatenation of the successful deltas. -/
theorem C1_transcript_append_only :
    (∀ (script : List (List Chunk × Collaborators)) (s : ServiceState)
        (q : List Chunk) (out : RunResult),
        run_cycles s q script = .ok out →
        out.state.current_transcript =
          s.current_transcript ++ concat_texts out.texts) ∧
    (∀ (c : Collaborators) (s : ServiceState) (audio : Chunk) (r : ChunkResult),
        process_audio_chunk c s audio = .ok r →
        r.state.current_transcript = s.current_transcript ++ r.text) ∧
    (∀ (c : Collaborators) (s : ServiceState),
        (analyze_content c s).1.current_transcript = s.current_transcript) ∧
    (∀ (s : ServiceState) (w : Client),
        (register_client s w).1.current_transcript = s.current_transcript) ∧
    (∀ (tr : Chunk → Except String String)
        (dr ir : String → Except String String) (s : ManagerState)
        (audios : List Chunk),
        (cm_run tr dr ir s audios).current_transcript =
          s.current_transcript ++
            concat_texts (audios.filterMap (success_text tr))) :=
  ⟨run_cycles_transcript,
   process_audio_chunk_transcript,
   analyze_content_transcript,
   fun _ _ => rfl,
   fun tr dr ir s audios => cm_run_transcript tr dr ir audios s⟩

/-- Run outcome of the concrete one-cycle script used by the C1 witness. -/
def outW : RunResult := ⟨[], ⟨"T", [], [], []⟩, ["T"]⟩

/-- Witness for C1 at a concrete one-cycle script. -/
theorem C1_witness :
    outW.state.current_transcript = s0.current_transcript ++ concat_texts outW.texts :=
  C1_transcript_append_only.1 [([[1]], cW)] s0 [] outW rfl

/-- Claim C2: draining a queue built by enqueues returns exactly the
enqueued chunks in arrival (FIFO) order and leaves the queue empty, and a
drain of an empty queue returns the empty result. -/
theorem C2_drain_all_fifo :
    (∀ chunks : List Chunk,
        drain_all (List.foldl enqueue [] chunks) = (chunks, [])) ∧
    drain_all [] = ([], []) :=
  ⟨fun chunks => by rw [foldl_enqueue]; simpa using drain_all_eq chunks, rfl⟩

/-- Claim C3 (refuting evaluation): with registered channels [1, 2] and
delivery failing exactly for channel 1, broadcast_update removes channel 1
but, because the loop mutates the list it iterates, channel 2 is skipped:
the delivered list is empty, so a registered channel other than the failed
one does not receive the event, contradicting the claim (main.py's
ConnectionManager.broadcast defers removal and does not have this flaw). -/
theorem C3_broadcast_update_skips_survivor :
    broadcast_update (fun c => c != 1) [1, 2] = ([2], []) := rfl

/-- Claim C4: register_client appends the channel to the active set and the
message sent to it equals the then-current full state snapshot
{transcript, diagrams, action_items}. -/
theorem C4_register_sends_snapshot :
    ∀ (s : ServiceState) (w : Client),
      (register_client s w).1.websocket_clients = s.websocket_clients ++ [w] ∧
      (register_client s w).2 =
        CurrentState.mk s.current_transcript s.diagrams s.action_items :=
  fun _ _ => ⟨rfl, rfl⟩

/-- Claim C6 (refuting evaluation): a cycle of _process_audio_buffer whose
transcription raises propagates the exception out of the loop body — the
source loop has no exception handling, so the background orchestrator
thread dies, no error event is broadcast, and the loop does not continue,
contradicting the claim that only a session-teardown signal terminates it. -/
theorem C6_transcription_failure_kills_loop :
    process_audio_buffer_cycle cFail [[1]] s0 = .error "transcription failed" := rfl

/-- Claim C5: when one derivation call fails or returns malformed output
while the other succeeds, the failing derivation yields an empty result
(none / []) and leaves its list unchanged, the succeeding derivation's
parsed result is still appended to its list and broadcast, and the
processing cycle is not aborted (a successful transcription always yields
an ok result whatever the derivations do). -/
theorem C5_derivation_isolation :
    (∀ (c : Collaborators) (t e : String),
        c.diagramResponse t = .error e → generate_diagram_spec c t = none) ∧
    (∀ (c : Collaborators) (t e : String),
        c.itemsResponse t = .error e → extract_action_items c t = []) ∧
    (∀ (c : Collaborators) (s : ServiceState),
        generate_diagram_spec c s.current_transcript = none →
        (analyze_content c s).1.diagrams = s.diagrams ∧
        (analyze_content c s).1.action_items =
          s.action_items ++ extract_action_items c s.current_transcript ∧
        (extract_action_items c s.current_transcript ≠ [] →
          ∃ rcv, (Event.mk "action_items"
              (EventData.actionItemsData
                (extract_action_items c s.current_transcript)), rcv)
            ∈ (analyze_content c s).2)) ∧
    (∀ (c : Collaborators) (s : ServiceState) (d : DiagramMetadata),
        generate_diagram_spec c s.current_transcript = some d →
        extract_action_items c s.current_transcript = [] →
        (analyze_content c s).1.action_items = s.action_items ∧
        (analyze_content c s).1.diagrams = s.diagrams ++ [d] ∧
        ∃ rcv, (Event.mk "diagram" (EventData.diagramData d), rcv)
          ∈ (analyze_content c s).2) ∧
    (∀ (c : Collaborators) (s : ServiceState) (audio : Chunk) (t : String),
        c.transcribe audio = .ok t →
        ∃ r, process_audio_chunk c s audio = .ok r) := by
  refine ⟨?_, ?_, ?_, ?_, ?_⟩
  · intro c t e h; unfold generate_diagram_spec; rw [h]
  · intro c t e h; unfold extract_action_items; rw [h]
  · intro c s hD
    have hds : run_diagram_step c s = (s, []) := by
      unfold run_diagram_step; rw [hD]
    unfold analyze_content
    rw [hds]
    cases hA : extract_action_items c s.current_transcript with
    | nil =>
      refine ⟨rfl, by simp [run_action_items_step], ?_⟩
      intro hne; exact absurd rfl hne
    | cons a as =>
      refine ⟨rfl, rfl, ?_⟩
      intro _
      exact ⟨(broadcast_update c.sendOk s.websocket_clients).2,
        by simp [run_action_items_step]⟩
  · intro c s d hD hA
    unfold analyze_content
    rw [hA]
    unfold run_diagram_step
    rw [hD]
    exact ⟨rfl, rfl, (broadcast_update c.sendOk s.websocket_clients).2,
      by simp [run_action_items_step]⟩
  · intro c s audio t h
    unfold process_audio_chunk
    rw [h]
    exact ⟨_, rfl⟩

/-- Witness for C5: the diagram call fails while the action-item call
parses one item; applied at the initial state. -/
theorem C5_witness :
    (analyze_content cC5 s0).1.diagrams = s0.diagrams ∧
    (analyze_content cC5 s0).1.action_items =
      s0.action_items ++ extract_action_items cC5 s0.current_transcript ∧
    (extract_action_items cC5 s0.current_transcript ≠ [] →
      ∃ rcv, (Event.mk "action_items"
          (EventData.actionItemsData
            (extract_action_items cC5 s0.current_transcript)), rcv)
        ∈ (analyze_content cC5 s0).2) :=
  C5_derivation_isolation.2.2.1 cC5 s0 rfl

/-- Claim C7 counterexample: removing a registered channel succeeds, but a
second remove_client call on the now-absent channel raises ValueError, so
unregistering through TranscriptionService.remove_client is not idempotent
and does raise. -/
theorem C7_counterexample :
    remove_client ⟨"", [], [], [0]⟩ 0 = .ok ⟨"", [], [], []⟩ ∧
    remove_client ⟨"", [], [], []⟩ 0 = .error PyExc.valueError := ⟨rfl, rfl⟩

theorem disconnect_eq (close : Client → Except String Unit) (cl : List Client)
    (w : Client) : disconnect close cl w = if w ∈ cl then cl.erase w else cl := by
  unfold disconnect
  by_cases h : w ∈ cl
  · rw [if_pos h, if_pos h]
    cases close w <;> rfl
  · rw [if_neg h, if_neg h]

/-- Claim C7 amended: unregistering through ConnectionManager.disconnect is
idempotent — a call on an already-removed channel leaves the active set
unchanged and raises no error, and errors from the in-flight close are
swallowed (the result does not depend on the close outcome) — while
TranscriptionService.remove_client instead raises ValueError whenever the
channel is absent. -/
theorem C7_amended_unregister :
    (∀ (close : Client → Except String Unit) (cl : List Client) (w : Client),
        w ∉ cl → disconnect close cl w = cl) ∧
    (∀ (close : Client → Except String Unit) (cl : List Client) (w : Client),
        cl.Nodup →
        disconnect close (disconnect close cl w) w = disconnect close cl w) ∧
    (∀ (close1 close2 : Client → Except String Unit) (cl : List Client)
        (w : Client), disconnect close1 cl w = disconnect close2 cl w) ∧
    (∀ (s : ServiceState) (w : Client), w ∉ s.websocket_clients →
        remove_client s w = .error PyExc.valueError) := by
  refine ⟨?_, ?_, ?_, ?_⟩
  · intro close cl w h; rw [disconnect_eq, if_neg h]
  · intro close cl w hnd
    by_cases h : w ∈ cl
    · rw [disconnect_eq close cl w, if_pos h, disconnect_eq,
        if_neg hnd.not_mem_erase]
    · rw [disconnect_eq close cl w, if_neg h, disconnect_eq, if_neg h]
  · intro close1 close2 cl w; rw [disconnect_eq, disconnect_eq]
  · intro s w h; unfold remove_client; rw [if_neg h]

/-- Witness for C7 (amended): a disconnect of a channel absent from the
empty registry is a no-op. -/
theorem C7_witness :
    disconnect (fun _ => Except.ok ()) [] 0 = [] :=
  C7_amended_unregister.1 (fun _ => Except.ok ()) [] 0 (by decide)

theorem process_audio_chunk_error (c : Collaborators) (s : ServiceState)
    (audio : Chunk) (e : String) (h : c.transcribe audio = .error e) :
    process_audio_chunk c s audio = .error e := by
  unfold process_audio_chunk
  rw [h]

/-- Claim C8 counterexample: with one queued chunk of zero samples, the
cycle drains it, concatenates to a zero-sample buffer, and still calls the
transcriber on it, appends the returned text and broadcasts a transcript
event — transcription is not skipped, contradicting the claim. -/
theorem C8_counterexample :
    process_audio_buffer_cycle cW [[]] s0 =
      .ok ⟨[], ⟨"T", [], [], []⟩, ["T"],
        [(Event.mk "transcript" (EventData.textDelta "T"), [])], [[]]⟩ := rfl

/-- Claim C8 amended: a cycle performs no transcriber call and broadcasts
no event, leaving the whole state unchanged, exactly when the intake queue
is empty at the start of the cycle; when chunks are drained the combined
buffer is submitted to the transcriber even when it has zero samples (and
a transcription failure then propagates). -/
theorem C8_amended_skip_iff_queue_empty :
    (∀ (c : Collaborators) (s : ServiceState),
        process_audio_buffer_cycle c [] s = .ok ⟨[], s, [], [], []⟩) ∧
    (∀ (c : Collaborators) (q : List Chunk) (s : ServiceState) (r : CycleResult),
        q ≠ [] → process_audio_buffer_cycle c q s = .ok r →
        r.calls = [q.flatten]) ∧
    (∀ (c : Collaborators) (q : List Chunk) (s : ServiceState) (e : String),
        q ≠ [] → c.transcribe q.flatten = .error e →
        process_audio_buffer_cycle c q s = .error e) := by
  refine ⟨?_, ?_, ?_⟩
  · intro c s; rfl
  · intro c q s r hne h
    unfold process_audio_buffer_cycle at h
    rw [if_neg (by simp only [List.isEmpty_iff]; exact hne)] at h
    split at h
    · cases h
    · rename_i rc hpc
      simp only [Except.ok.injEq] at h
      subst h
      simp [drain_all_eq]
  · intro c q s e hne htr
    unfold process_audio_buffer_cycle
    rw [if_neg (by simp only [List.isEmpty_iff]; exact hne)]
    simp only [drain_all_eq]
    rw [process_audio_chunk_error c s q.flatten e htr]

/-- Cycle outcome of the concrete C8 witness run. -/
def r8 : CycleResult :=
  ⟨[], ⟨"T", [], [], []⟩, ["T"],
   [(Event.mk "transcript" (EventData.textDelta "T"), [])], [[1]]⟩

/-- Witness for C8 (amended): a drained non-empty queue is submitted to
the transcriber as one combined buffer. -/
theorem C8_witness : r8.calls = [List.flatten [[1]]] :=
  C8_amended_skip_iff_queue_empty.2.1 cW [[1]] s0 r8 (by decide) rfl

theorem py_index_eq_get (l : List DiagramMetadata) (i : Int)
    (h0 : 0 ≤ py_adjust l.length i) :
    py_index l i = l.get? (py_adjust l.length i).toNat := by
  unfold py_index
  by_cases h : 0 ≤ py_adjust l.length i ∧ py_adjust l.length i < (l.length : Int)
  · rw [dif_pos h, List.get?_eq_get (by omega)]
  · rw [dif_neg h, eq_comm]
    rw [List.get?_eq_none]
    omega

/-- Claim C9: export_diagram raises ValueError exactly when the requested
id is at least the number of stored diagrams; every negative id passes
that bounds check (it can never produce ValueError), a negative id within
Python range selects a diagram by negative indexing (the lookup equals
get? at id plus length) and the call returns None, any in-range
non-negative id also returns None, and no call ever returns diagram
bytes. -/
theorem C9_export_diagram_contract (diagrams : List DiagramMetadata)
    (diagram_id : Int) :
    (export_diagram diagrams diagram_id = .error PyExc.valueError ↔
        (diagrams.length : Int) ≤ diagram_id) ∧
    (diagram_id < 0 →
        export_diagram diagrams diagram_id ≠ .error PyExc.valueError) ∧
    (diagram_id < 0 → -(diagrams.length : Int) ≤ diagram_id →
        py_index diagrams diagram_id =
          diagrams.get? (diagram_id + diagrams.length).toNat ∧
        export_diagram diagrams diagram_id = .ok none) ∧
    (0 ≤ diagram_id → diagram_id < (diagrams.length : Int) →
        export_diagram diagrams diagram_id = .ok none) ∧
    (∀ b : List Nat, export_diagram diagrams diagram_id ≠ .ok (some b)) := by
  have hval : export_diagram diagrams diagram_id = .error PyExc.valueError ↔
      (diagrams.length : Int) ≤ diagram_id := by
    constructor
    · intro h
      by_contra hlt
      unfold export_diagram at h
      rw [if_neg hlt] at h
      split at h <;> simp at h
    · intro h
      unfold export_diagram
      rw [if_pos h]
  refine ⟨hval, ?_, ?_, ?_, ?_⟩
  · intro hneg hcon
    have := hval.mp hcon
    have hlen : (0:Int) ≤ (diagrams.length : Int) := by positivity
    omega
  · intro hneg hge
    have ha : py_adjust diagrams.length diagram_id =
        diagram_id + diagrams.length := by
      unfold py_adjust; rw [if_pos hneg]
    have hsome : ∃ d, py_index diagrams diagram_id = some d := by
      unfold py_index
      rw [dif_pos ⟨by rw [ha]; omega, by rw [ha]; omega⟩]
      exact ⟨_, rfl⟩
    obtain ⟨d, hd⟩ := hsome
    constructor
    · rw [py_index_eq_get _ _ (by rw [ha]; omega), ha]
    · unfold export_diagram
      rw [if_neg (by omega), hd]
  · intro h0 hlt
    have ha : py_adjust diagrams.length diagram_id = diagram_id := by
      unfold py_adjust; rw [if_neg (by omega)]
    have hsome : ∃ d, py_index diagrams diagram_id = some d := by
      unfold py_index
      rw [dif_pos ⟨by rw [ha]; omega, by rw [ha]; omega⟩]
      exact ⟨_, rfl⟩
    obtain ⟨d, hd⟩ := hsome
    unfold export_diagram
    rw [if_neg (by omega), hd]
  · intro b h
    unfold export_diagram at h
    by_cases hge : (diagrams.length : Int) ≤ diagram_id
    · rw [if_pos hge] at h
      exact Except.noConfusion h
    · rw [if_neg hge] at h
      split at h
      · exact Except.noConfusion h
      · simp at h

/-- Witness for C9: a negative id on a one-diagram store passes the bounds
check. -/
theorem C9_witness : export_diagram [diag0] (-1) ≠ .error PyExc.valueError :=
  (C9_export_diagram_contract [diag0] (-1)).2.1 (by decide)

theorem validate_lines_none (validate : String → Option ActionItem) :
    ∀ (lines : List String) (l : String), l ∈ lines → validate l = none →
      validate_lines validate lines = none := by
  intro lines
  induction lines with
  | nil => intro l h _; cases h
  | cons x xs ih =>
    intro l hmem hval
    unfold validate_lines
    cases hx : validate x with
    | none => rfl
    | some item =>
      rcases List.mem_cons.mp hmem with h1 | h2
      · subst h1
        rw [hx] at hval
        exact Option.noConfusion hval
      · rw [ih l h2 hval]

/-- Claim C10: action-item parsing is all-or-nothing per cycle — the raw
response is split into non-blank lines, each line is validated as one
ActionItem, a single failing line makes the whole parse yield the empty
list (discarding lines that did validate), and only a fully validated
response yields its items. -/
theorem C10_action_items_all_or_nothing :
    (∀ (validate : String → Option ActionItem) (raw l : String),
        l ∈ nonblank_lines raw → validate l = none →
        parse_action_items validate raw = []) ∧
    (∀ (validate : String → Option ActionItem) (raw : String)
        (items : List ActionItem),
        validate_lines validate (nonblank_lines raw) = some items →
        parse_action_items validate raw = items) ∧
    (∀ (c : Collaborators) (t raw : String),
        c.itemsResponse t = .ok raw →
        extract_action_items c t = parse_action_items c.validateItem raw) := by
  refine ⟨?_, ?_, ?_⟩
  · intro validate raw l hmem hval
    unfold parse_action_items
    rw [validate_lines_none validate (nonblank_lines raw) l hmem hval]
  · intro validate raw items h
    unfold parse_action_items
    rw [h]
  · intro c t raw h
    unfold extract_action_items
    rw [h]

/-- Witness for C10: one good line followed by one bad line parses to the
empty list. -/
theorem C10_witness : parse_action_items vW "good\nbad" = [] :=
  C10_action_items_all_or_nothing.1 vW "good\nbad" "bad" (by decide) (by decide)
